import Mathlib

set_option maxRecDepth 8000

/-!
Shallow embedding of the `stormwater_classifier` repository.

The embedding follows the Python sources:
* `src/parsing/description_parser.py` — a small backtracking pattern matcher
  (`Rx`, `mtch`, `rxSearch`, `rxFindall`) reproducing the `re` constructs the
  module actually uses (case-insensitive literals, character classes,
  greedy/lazy repetition over classes, alternation, option, word boundary,
  one capture group), plus the extraction cascade `parse_description`.
* `src/lookups/lookup_client.py` — `lookup_location_features` over an abstract
  parcel/drainage store (the geodata files are external collaborators; parcel
  geometry is abstracted to its centroid and each drainage polygon to its
  point-containment test), with pandas `Series.str.contains` modelled as
  case-insensitive regex containment (`pandasContains`, `.` is a wildcard)
  and `difflib.get_close_matches` modelled by the documented
  ratio = 2*M/T similarity (`similarityScore`, `get_close_matches_1`).
* `src/classify.py` — `compute_intermediates`, `compute_final_labels`,
  `classify`, `classify_with_explanation`, with the two text predictors
  abstracted as probability functions `String → ℚ` (external artifacts).
* `src/models/models.py` — `load_models` over an abstract model directory.
* `scripts/eval_classifier.py` — `to_bool` over a Python-value type.

Numeric quantities (square feet, probabilities) are modelled as `ℚ`; every
concrete value the program manipulates is an integer or a small fraction, so
nothing is lost to float rounding here.
-/

/-! ## Character-level helpers (the ASCII fragment of Python `re`/`str` semantics
    that the sources exercise) -/

def lowerC (c : Char) : Char :=
  if 'A' ≤ c ∧ c ≤ 'Z' then Char.ofNat (c.toNat + 32) else c

def upperC (c : Char) : Char :=
  if 'a' ≤ c ∧ c ≤ 'z' then Char.ofNat (c.toNat - 32) else c

def isDigitC (c : Char) : Bool := decide ('0' ≤ c ∧ c ≤ '9')

/-- Python `\s` (ASCII): space, tab, newline, carriage return, vertical tab, form feed. -/
def isSpaceC (c : Char) : Bool :=
  decide (c = ' ' ∨ c = '\t' ∨ c = '\n' ∨ c = '\r' ∨ c = Char.ofNat 11 ∨ c = Char.ofNat 12)

def isAlphaC (c : Char) : Bool := decide (('a' ≤ c ∧ c ≤ 'z') ∨ ('A' ≤ c ∧ c ≤ 'Z'))

/-- Python `\w` restricted to ASCII: letters, digits, underscore. -/
def isWordC (c : Char) : Bool := isAlphaC c || isDigitC c || decide (c = '_')

def digitsToNat (l : List Char) : Nat :=
  l.foldl (fun a c => a * 10 + (c.toNat - 48)) 0

def lowerStr (s : String) : String := String.mk (s.data.map lowerC)

def upperStr (s : String) : String := String.mk (s.data.map upperC)

/-! ## A small backtracking matcher for the regex fragment used by
    `description_parser.py` -/

/-- Abstract syntax of the regex fragment used by the parser module.
`lit` is matched case-insensitively (all the Python patterns carry
`re.IGNORECASE`); `many`/`many1` are `*`/`+` over a character class with a
greediness flag (`False` models a lazy `+?`); `wb` is `\b`; `grp` is the one
capturing group each pattern uses. -/
inductive Rx where
  | eps
  | cls (p : Char → Bool)
  | lit (s : List Char)
  | seq (a b : Rx)
  | alt (a b : Rx)
  | opt (a : Rx)
  | many (p : Char → Bool) (greedy : Bool)
  | many1 (p : Char → Bool) (greedy : Bool)
  | wb
  | grp (a : Rx)

/-- One alternative outcome of a match attempt: the remaining input, the
character just before it (needed for `\b`), and the capture-group slice. -/
structure MatchState where
  rem : List Char
  prev : Option Char
  cap : Option (List Char)

def bindL (l : List α) (f : α → List β) : List β :=
  match l with
  | [] => []
  | a :: l' => f a ++ bindL l' f

/-- Case-insensitive literal match; returns remaining input and new previous
character. -/
def litMatch : List Char → Option Char → List Char → Option (List Char × Option Char)
  | [], prev, cs => some (cs, prev)
  | _ :: _, _, [] => none
  | a :: s', _, c :: cs' =>
    if lowerC a = lowerC c then litMatch s' (some c) cs' else none

/-- All ways of consuming a (possibly empty) run of class characters, in lazy
order (shortest first), each with the updated previous character. -/
def manyL (p : Char → Bool) (prev : Option Char) : List Char → List (List Char × Option Char)
  | [] => [([], prev)]
  | c :: cs' =>
    (c :: cs', prev) :: (if p c then manyL p (some c) cs' else [])

/-- The matcher: all outcomes of matching `r` at the start of `cs`, in Python
backtracking priority order (first element = the match Python commits to). -/
def mtch : Rx → Option Char → List Char → List MatchState
  | .eps, prev, cs => [⟨cs, prev, none⟩]
  | .cls p, prev, cs =>
    match cs with
    | c :: cs' => if p c then [⟨cs', some c, none⟩] else []
    | [] =>
      match prev with
      | _ => []
  | .lit s, prev, cs =>
    match litMatch s prev cs with
    | some (rem, pr) => [⟨rem, pr, none⟩]
    | none => []
  | .seq a b, prev, cs =>
    bindL (mtch a prev cs) (fun st =>
      (mtch b st.prev st.rem).map (fun st2 => ⟨st2.rem, st2.prev, st2.cap <|> st.cap⟩))
  | .alt a b, prev, cs => mtch a prev cs ++ mtch b prev cs
  | .opt a, prev, cs => mtch a prev cs ++ [⟨cs, prev, none⟩]
  | .many p g, prev, cs =>
    let l := (manyL p prev cs).map (fun x => (⟨x.1, x.2, none⟩ : MatchState))
    if g then l.reverse else l
  | .many1 p g, prev, cs =>
    let l := ((manyL p prev cs).drop 1).map (fun x => (⟨x.1, x.2, none⟩ : MatchState))
    if g then l.reverse else l
  | .wb, prev, cs =>
    let w1 := match prev with | some c => isWordC c | none => false
    let w2 := match cs with | c :: _ => isWordC c | [] => false
    if w1 ≠ w2 then [⟨cs, prev, none⟩] else []
  | .grp a, prev, cs =>
    (mtch a prev cs).map (fun st => ⟨st.rem, st.prev, some (cs.take (cs.length - st.rem.length))⟩)

/-- `re.search`: try the pattern at each position left to right, committing to
the first position where it matches and to the highest-priority outcome there. -/
def searchAux (r : Rx) : Nat → Option Char → List Char → Option MatchState
  | 0, _, _ => none
  | fuel + 1, prev, cs =>
    match mtch r prev cs with
    | st :: _ => some st
    | [] =>
      match cs with
      | [] => none
      | c :: cs' => searchAux r fuel (some c) cs'

def rxSearch (r : Rx) (cs : List Char) : Option MatchState :=
  searchAux r (cs.length + 1) none cs

/-- `re.findall` for a single-group pattern: the list of group captures of the
non-overlapping matches, scanning left to right. -/
def findallAux (r : Rx) : Nat → Option Char → List Char → List (List Char)
  | 0, _, _ => []
  | fuel + 1, prev, cs =>
    match mtch r prev cs with
    | st :: _ =>
      let consumed := cs.take (cs.length - st.rem.length)
      let capv := st.cap.getD []
      if st.rem.length < cs.length then
        capv :: findallAux r fuel consumed.getLast? st.rem
      else
        match cs with
        | [] => [capv]
        | c :: cs' => capv :: findallAux r fuel (some c) cs'
    | [] =>
      match cs with
      | [] => []
      | c :: cs' => findallAux r fuel (some c) cs'

def rxFindall (r : Rx) (cs : List Char) : List (List Char) :=
  findallAux r (cs.length + 1) none cs

/-! ## The patterns of `description_parser.py` -/

def litS (s : String) : Rx := .lit s.data

/-- `\s*` -/
def sp0 : Rx := .many isSpaceC true

/-- `\s+` -/
def sp1 : Rx := .many1 isSpaceC true

/-- `.*` (Python `.` does not match a newline) -/
def dotStar : Rx := .many (fun c => decide (c ≠ '\n')) true

/-- `[\d,]+` -/
def digsCommas : Rx := .many1 (fun c => isDigitC c || decide (c = ',')) true

def alts : Rx → List Rx → Rx
  | r, [] => r
  | r, s :: t => .alt r (alts s t)

def sqFeetRx : Rx := .seq (litS "square") (.seq sp0 (litS "feet"))

def sqFtRx : Rx := .seq (litS "sq") (.seq sp0 (litS "ft"))

/-- `(?:sf|square\s*feet|sq\s*ft)` -/
def unit3 : Rx := .alt (litS "sf") (.alt sqFeetRx sqFtRx)

/-- `(?:sf|square\s*feet)` -/
def unit2 : Rx := .alt (litS "sf") sqFeetRx

/-- `[\d,]+\s*(?:sf|square\s*feet|sq\s*ft)` (the group body in DISTURB_PHRASES[0]) -/
def qty3 : Rx := .seq digsCommas (.seq sp0 unit3)

/-- `[\d,]+\s*(?:sf|square\s*feet)` (the group body in the remaining quantity patterns) -/
def qty2 : Rx := .seq digsCommas (.seq sp0 unit2)

/-- `NUMBER_SF_PATTERN = ([\d,]+)\s*(?:sf|square\s*feet|sq\s*ft)` -/
def NUMBER_SF_PATTERN : Rx := .seq (.grp digsCommas) (.seq sp0 unit3)

/-- `ADDRESS_PATTERN`: `\b(\d+\s+[A-Za-z0-9.\-'\s]+?\s+(?:Street|St|...|Dr))\b` -/
def addressNameChar (c : Char) : Bool :=
  isAlphaC c || isDigitC c || decide (c = '.') || decide (c = '-') ||
    decide (c = Char.ofNat 39) || isSpaceC c

def streetSuffixRx : Rx :=
  alts (litS "Street") [litS "St", litS "Avenue", litS "Ave", litS "Boulevard",
    litS "Blvd", litS "Lane", litS "Ln", litS "Road", litS "Rd", litS "Drive", litS "Dr"]

def ADDRESS_PATTERN : Rx :=
  .seq .wb (.seq (.grp (.seq (.many1 isDigitC true)
    (.seq sp1 (.seq (.many1 addressNameChar false) (.seq sp1 streetSuffixRx))))) .wb)

/-- `BOROUGH_PATTERN`:
`\b(?:in\s+(?:the\s+borough\s+of\s+)?)?(Bronx|Brooklyn|Queens|Manhattan|Staten\s+Island|SI|S\.I\.)\b` -/
def boroughAltsRx : Rx :=
  alts (litS "Bronx") [litS "Brooklyn", litS "Queens", litS "Manhattan",
    .seq (litS "Staten") (.seq sp1 (litS "Island")), litS "SI", litS "S.I."]

def BOROUGH_PATTERN : Rx :=
  .seq .wb (.seq (.opt (.seq (litS "in") (.seq sp1 (.opt (.seq (litS "the")
    (.seq sp1 (.seq (litS "borough") (.seq sp1 (.seq (litS "of") sp1)))))))))
    (.seq (.grp boroughAltsRx) .wb))

/-- `DISTURB_PHRASES[0]`:
`disturb(?:s|ed|ance|ing)?\s*(?:approximately|around|roughly)?\s*([\d,]+\s*(?:sf|square\s*feet|sq\s*ft))` -/
def disturbP1 : Rx :=
  .seq (litS "disturb")
    (.seq (.opt (alts (litS "s") [litS "ed", litS "ance", litS "ing"]))
      (.seq sp0 (.seq (.opt (alts (litS "approximately") [litS "around", litS "roughly"]))
        (.seq sp0 (.grp qty3)))))

/-- `DISTURB_PHRASES[1]`: `soil\s+disturbance\s*(?:of)?\s*([\d,]+\s*(?:sf|square\s*feet))` -/
def disturbP2 : Rx :=
  .seq (litS "soil") (.seq sp1 (.seq (litS "disturbance")
    (.seq sp0 (.seq (.opt (litS "of")) (.seq sp0 (.grp qty2))))))

def DISTURB_PHRASES : List Rx := [disturbP1, disturbP2]

def hyphenOrSpace (c : Char) : Bool := decide (c = '-') || isSpaceC c

/-- `disturb(?:ing|s|ed)?\s+(?:the\s+)?(?:entire|full)\s+(?:site|lot|parcel)` -/
def fullSiteP1 : Rx :=
  .seq (litS "disturb") (.seq (.opt (alts (litS "ing") [litS "s", litS "ed"]))
    (.seq sp1 (.seq (.opt (.seq (litS "the") sp1))
      (.seq (.alt (litS "entire") (litS "full"))
        (.seq sp1 (alts (litS "site") [litS "lot", litS "parcel"]))))))

/-- `(?:entire|full)\s+(?:site|lot|parcel)\s+will\s+be\s+disturbed` -/
def fullSiteP2 : Rx :=
  .seq (.alt (litS "entire") (litS "full"))
    (.seq sp1 (.seq (alts (litS "site") [litS "lot", litS "parcel"])
      (.seq sp1 (.seq (litS "will") (.seq sp1 (.seq (litS "be") (.seq sp1 (litS "disturbed"))))))))

/-- `full[-\s]?site` -/
def fullSiteP3 : Rx := .seq (litS "full") (.seq (.opt (.cls hyphenOrSpace)) (litS "site"))

/-- `full[-\s]?lot` -/
def fullSiteP4 : Rx := .seq (litS "full") (.seq (.opt (.cls hyphenOrSpace)) (litS "lot"))

/-- `full[-\s]?parcel` -/
def fullSiteP5 : Rx := .seq (litS "full") (.seq (.opt (.cls hyphenOrSpace)) (litS "parcel"))

/-- `full[-\s]depth\s+reconstruction` -/
def fullSiteP6 : Rx :=
  .seq (litS "full") (.seq (.cls hyphenOrSpace)
    (.seq (litS "depth") (.seq sp1 (litS "reconstruction"))))

/-- `the\s+entire\s+.*\s+will\s+be\s+disturbed` -/
def fullSiteP7 : Rx :=
  .seq (litS "the") (.seq sp1 (.seq (litS "entire") (.seq sp1 (.seq dotStar
    (.seq sp1 (.seq (litS "will") (.seq sp1 (.seq (litS "be") (.seq sp1 (litS "disturbed"))))))))))

def FULL_SITE_PHRASES : List Rx :=
  [fullSiteP1, fullSiteP2, fullSiteP3, fullSiteP4, fullSiteP5, fullSiteP6, fullSiteP7]

/-- `new\s+impervious\s+area\s*(?:of)?\s*([\d,]+\s*(?:sf|square\s*feet))` -/
def impP1 : Rx :=
  .seq (litS "new") (.seq sp1 (.seq (litS "impervious") (.seq sp1 (.seq (litS "area")
    (.seq sp0 (.seq (.opt (litS "of")) (.seq sp0 (.grp qty2))))))))

/-- `adding\s*([\d,]+\s*(?:sf|square\s*feet))\s+of\s+new\s+impervious` -/
def impP2 : Rx :=
  .seq (litS "adding") (.seq sp0 (.seq (.grp qty2) (.seq sp1 (.seq (litS "of")
    (.seq sp1 (.seq (litS "new") (.seq sp1 (litS "impervious"))))))))

/-- `(?:propos(?:es|ing)\s*)?([\d,]+\s*(?:sf|square\s*feet))\s*(?:of)?\s*new\s+impervious` -/
def impP3 : Rx :=
  .seq (.opt (.seq (litS "propos") (.seq (.alt (litS "es") (litS "ing")) sp0)))
    (.seq (.grp qty2) (.seq sp0 (.seq (.opt (litS "of"))
      (.seq sp0 (.seq (litS "new") (.seq sp1 (litS "impervious")))))))

def IMPERVIOUS_PHRASES : List Rx := [impP1, impP2, impP3]

def newBuildingP1 : Rx := .seq (litS "new") (.seq sp1 (litS "building"))

def newBuildingP2 : Rx :=
  .seq (litS "construction") (.seq sp1 (.seq (litS "of")
    (.seq sp1 (.seq (litS "a") (.seq sp1 (litS "new"))))))

def newBuildingP3 : Rx :=
  .seq (litS "constructing") (.seq sp1 (.seq (litS "a") (.seq sp1 (litS "new"))))

def newBuildingP4 : Rx :=
  .seq (litS "erect") (.seq (.opt (litS "ing")) (.seq sp1 (.seq (litS "a") (.seq sp1 (litS "new")))))

def newBuildingP5 : Rx :=
  .seq (litS "propos") (.seq (.alt (litS "es") (litS "ing"))
    (.seq sp1 (.seq (litS "a") (.seq sp1 (.seq (litS "new") (.seq sp1 (litS "building")))))))

/-- `replace(?:s|d|ment)?\s+.*\s+with\s+a\s+new\s+building` -/
def newBuildingP6 : Rx :=
  .seq (litS "replace") (.seq (.opt (alts (litS "s") [litS "d", litS "ment"]))
    (.seq sp1 (.seq dotStar (.seq sp1 (.seq (litS "with") (.seq sp1 (.seq (litS "a")
      (.seq sp1 (.seq (litS "new") (.seq sp1 (litS "building")))))))))))

def newBuildingP7 : Rx :=
  .seq (litS "construction") (.seq sp1 (.seq (litS "of") (.seq sp1 (litS "new"))))

/-- `construct(?:ing)?\s+.*\s+new\s+building` -/
def newBuildingP9 : Rx :=
  .seq (litS "construct") (.seq (.opt (litS "ing")) (.seq sp1 (.seq dotStar
    (.seq sp1 (.seq (litS "new") (.seq sp1 (litS "building")))))))

/-- `new\s+\d+-story\s+building` -/
def newBuildingP10 : Rx :=
  .seq (litS "new") (.seq sp1 (.seq (.many1 isDigitC true)
    (.seq (litS "-story") (.seq sp1 (litS "building")))))

def newBuildingP11 : Rx := .seq (litS "new") (.seq sp1 (litS "structure"))

/-- `propos(?:es|ing)\s+.*new\s+building` -/
def newBuildingP12 : Rx :=
  .seq (litS "propos") (.seq (.alt (litS "es") (litS "ing"))
    (.seq sp1 (.seq dotStar (.seq (litS "new") (.seq sp1 (litS "building"))))))

/-- The source list repeats `construction\s+of\s+a\s+new` as its eighth entry. -/
def NEW_BUILDING_PATTERNS : List Rx :=
  [newBuildingP1, newBuildingP2, newBuildingP3, newBuildingP4, newBuildingP5,
   newBuildingP6, newBuildingP7, newBuildingP2, newBuildingP9, newBuildingP10,
   newBuildingP11, newBuildingP12]

/-! ## `parse_description` -/

inductive DisturbedArea where
  | num (v : ℚ)
  | fullSite
deriving DecidableEq, Repr

structure ParsedDescription where
  text : String
  street_address : Option String
  borough : Option String
  disturbed_area_sf : Option DisturbedArea
  new_impervious_sf : ℚ
deriving DecidableEq, Repr

/-- `_extract_sf_number`: strip the non-digits from a matched quantity token and
read the remaining digits; a token with no digits yields `none`. -/
def extract_sf_number (s : List Char) : Option ℚ :=
  let cleaned := s.filter isDigitC
  if cleaned = [] then none else some ((digitsToNat cleaned : ℕ) : ℚ)

/-- The `for pat in ...: if m: ... break` loops: the capture of the first
pattern in the list that matches, `none` when none does. -/
def firstMatchCapture : List Rx → List Char → Option (List Char)
  | [], _ => none
  | r :: rest, cs =>
    match rxSearch r cs with
    | some st => some (st.cap.getD [])
    | none => firstMatchCapture rest cs

def anyMatch (pats : List Rx) (cs : List Char) : Bool :=
  pats.any (fun r => (rxSearch r cs).isSome)

/-- The disturbed-area value after the DISTURB_PHRASES loop (the loop breaks on
the first matching pattern even when its token has no digits). -/
def disturbedFromPhrases (cs : List Char) : Option ℚ :=
  match firstMatchCapture DISTURB_PHRASES cs with
  | some capv => extract_sf_number capv
  | none => none

/-- The disturbed-area value after the single-quantity heuristic. -/
def disturbedNumeric (cs : List Char) : Option ℚ :=
  match disturbedFromPhrases cs with
  | some v => some v
  | none =>
    match rxFindall NUMBER_SF_PATTERN cs with
    | [g] => extract_sf_number g
    | _ => none

/-- The full disturbed-area cascade including the FULL_SITE fallback. -/
def disturbedCascade (cs : List Char) : Option DisturbedArea :=
  match disturbedNumeric cs with
  | some v => some (.num v)
  | none => if anyMatch FULL_SITE_PHRASES cs then some .fullSite else none

/-- The new-impervious-area value after the IMPERVIOUS_PHRASES loop. -/
def newImpFromPhrases (cs : List Char) : Option ℚ :=
  match firstMatchCapture IMPERVIOUS_PHRASES cs with
  | some capv => extract_sf_number capv
  | none => none

/-- The full new-impervious cascade: phrases, then the nominal 1 for a new
building, then the default 0. -/
def newImpCascade (cs : List Char) : ℚ :=
  match newImpFromPhrases cs with
  | some v => v
  | none => if anyMatch NEW_BUILDING_PATTERNS cs then 1 else 0

def parse_description (text : String) : ParsedDescription :=
  let cs := text.data
  { text := text
    street_address := (rxSearch ADDRESS_PATTERN cs).map (fun st => String.mk (st.cap.getD []))
    borough := (rxSearch BOROUGH_PATTERN cs).map (fun st => String.mk (st.cap.getD []))
    disturbed_area_sf := disturbedCascade cs
    new_impervious_sf := newImpCascade cs }

/-! ## `lookup_client.py` -/

/-- A geographic point (the parcel centroid); coordinates in lat/lon. -/
abbrev Point := ℚ × ℚ

/-- One MapPLUTO parcel record, with its geometry abstracted to its centroid
(the only geometric datum the client reads from a parcel). -/
structure ParcelRec where
  Borough : String
  Address : String
  centroid : Point
  LotArea : Option ℚ

/-- One MS4 drainage-area record: its polygon abstracted to its
point-containment test, plus the four pollutant indicator attributes
(stringified, as `str(row.get(...))` does). -/
structure MS4Rec where
  containsPt : Point → Bool
  FLOATABLES : String
  PATHOGENS : String
  NITROGEN : String
  PHOSPHORUS : String

/-- The loaded `PlutoLookupClient` state: the parcel table and the MS4 table. -/
structure PlutoStore where
  pluto : List ParcelRec
  ms4 : List MS4Rec

def BORO_TO_CODE : List (String × String) :=
  [("Manhattan", "MN"), ("Bronx", "BX"), ("Brooklyn", "BK"),
   ("Queens", "QN"), ("Staten Island", "SI")]

def boroCodeGet (b : String) : Option String :=
  (BORO_TO_CODE.find? (fun kv => kv.1 == b)).map (fun kv => kv.2)

/-- Pandas `Series.str.contains(pat, case=False, na=False)` treats `pat` as a
regular expression. The only regex metacharacter an extracted street address
can contain is `.` (the address character class is `[A-Za-z0-9.\-'\s]`), so
the test is: some position of the haystack matches the pattern
character-for-character, case-insensitively, with `.` matching any
non-newline character. -/
def patMatchesAt : List Char → List Char → Bool
  | [], _ => true
  | _ :: _, [] => false
  | p :: ps, c :: cs =>
    (if p = '.' then decide (c ≠ '\n') else decide (p = c)) && patMatchesAt ps cs

def patSomewhere (p : List Char) : List Char → Bool
  | [] => patMatchesAt p []
  | c :: cs => patMatchesAt p (c :: cs) || patSomewhere p cs

def pandasContains (hay pat : String) : Bool :=
  patSomewhere (pat.data.map lowerC) (hay.data.map lowerC)

/-- `_exact_address_match`: the first parcel of the borough whose address
field contains the extracted street address (pandas regex containment,
case-insensitive); `.iloc[0]` of the filtered frame. -/
def exact_address_match (store : PlutoStore) (street_addr bcode : String) : Option ParcelRec :=
  store.pluto.find? (fun r => r.Borough == bcode && pandasContains r.Address street_addr)

/-! `difflib` model: `SequenceMatcher.ratio` is `2*M/T` where `M` is the total
size of the matching blocks and `T` the total length. The blocks are found by
recursively taking the longest matching block (earliest in `a`, then earliest
in `b`, on ties); the addresses involved are far below the 200-element
autojunk threshold, so no junk handling applies. -/

/-- Length of the common prefix of two lists. -/
def commonRunLen : List Char → List Char → Nat
  | a :: as', b :: bs' => if a = b then commonRunLen as' bs' + 1 else 0
  | _, _ => 0

/-- `find_longest_match` on index ranges `[alo, ahi) × [blo, bhi)`:
the longest common block, ties broken by earliest start in `a`, then in `b`. -/
def findLongest (a b : List Char) (alo ahi blo bhi : Nat) : Nat × Nat × Nat :=
  (List.range (ahi - alo)).foldl (fun best di =>
    let i := alo + di
    (List.range (bhi - blo)).foldl (fun best2 dj =>
      let j := blo + dj
      let k := min (commonRunLen (a.drop i) (b.drop j)) (min (ahi - i) (bhi - j))
      if best2.2.2 < k then (i, j, k) else best2) best) (alo, blo, 0)

/-- Total size of the matching blocks (`get_matching_blocks` recursion); the
fuel strictly bounds the recursion depth and `lengths + 1` is always enough. -/
def matchingTotal (a b : List Char) : Nat → Nat → Nat → Nat → Nat → Nat
  | 0, _, _, _, _ => 0
  | fuel + 1, alo, ahi, blo, bhi =>
    let r := findLongest a b alo ahi blo bhi
    let i := r.1
    let j := r.2.1
    let k := r.2.2
    if k = 0 then 0
    else matchingTotal a b fuel alo i blo j + k + matchingTotal a b fuel (i + k) ahi (j + k) bhi

/-- `SequenceMatcher(None, x, w).ratio()`: `2*M/T` (built with `mkRat`, which
is the same rational as the division). -/
def similarityScore (x w : List Char) : ℚ :=
  let m := matchingTotal x w (x.length + w.length + 1) 0 x.length 0 w.length
  if x.length + w.length = 0 then 1
  else mkRat (2 * m) (x.length + w.length)

/-- `difflib.get_close_matches(word, choices, n=1, cutoff=0.6)`: the best
choice with similarity at least 0.6; `heapq.nlargest` compares the
`(ratio, choice)` pairs lexicographically, so equal ratios fall back to
string comparison. -/
def get_close_matches_1 (word : String) (choices : List String) : Option String :=
  let scored := choices.filterMap (fun x =>
    let r := similarityScore x.data word.data
    if mkRat 3 5 ≤ r then some (r, x) else none)
  (scored.foldl (fun best rx =>
    match best with
    | none => some rx
    | some b => if b.1 < rx.1 ∨ (b.1 = rx.1 ∧ b.2 < rx.2) then some rx else some b) none).map
    (fun rx => rx.2)

/-- `address_list_by_boro` built in `__init__`: addresses of the parcels of
each borough. -/
def address_list_by_boro (store : PlutoStore) (b : String) : List String :=
  (store.pluto.filter (fun r => r.Borough == b)).map (fun r => r.Address)

/-- `_fuzzy_address_match` -/
def fuzzy_address_match (store : PlutoStore) (street_addr bcode : String) : Option ParcelRec :=
  match get_close_matches_1 street_addr (address_list_by_boro store bcode) with
  | none => none
  | some best =>
    store.pluto.find? (fun r => r.Borough == bcode && r.Address == best)

structure LocationFeatures where
  in_ms4_area : Bool
  pollutants_of_concern : List String
  lot_area_sf : Option ℚ
  full_site_disturbed_sf : Option ℚ
deriving DecidableEq, Repr

/-- The three-key default dictionary (its missing `full_site_disturbed_sf` key
reads back as `None` through `loc.get`). -/
def defaultLocationFeatures : LocationFeatures :=
  { in_ms4_area := false
    pollutants_of_concern := []
    lot_area_sf := none
    full_site_disturbed_sf := none }

/-- `_get_ms4_attributes`: pollutant tags of the first drainage polygon
containing the point; empty when none contains it. -/
def get_ms4_attributes (store : PlutoStore) (pt : Point) : List String :=
  match store.ms4.find? (fun m => m.containsPt pt) with
  | none => []
  | some row =>
    (if upperStr row.FLOATABLES == "YES" then ["floatables"] else []) ++
    (if upperStr row.PATHOGENS == "YES" then ["pathogens"] else []) ++
    (if upperStr row.NITROGEN == "YES" then ["nitrogen"] else []) ++
    (if upperStr row.PHOSPHORUS == "YES" then ["phosphorus"] else [])

/-- Python truthiness of the optional string fields (`not x` is true for both
`None` and the empty string). -/
def pyTruthyOptStr : Option String → Bool
  | none => false
  | some s => !(s == "")

/-- The feature dictionary built for a resolved parcel (lines 84–103 of
`lookup_client.py`). -/
def matchedFeatures (store : PlutoStore) (p : ParsedDescription) (mch : ParcelRec) :
    LocationFeatures :=
  let pt : Point := (mch.centroid.1, mch.centroid.2)
  let in_ms4 := store.ms4.any (fun a => a.containsPt pt)
  let pollutants := get_ms4_attributes store pt
  let lot_area := mch.LotArea
  let full_site := if p.disturbed_area_sf = some .fullSite then lot_area else none
  { in_ms4_area := in_ms4
    pollutants_of_concern := pollutants
    lot_area_sf := lot_area
    full_site_disturbed_sf := full_site }

/-- `PlutoLookupClient.lookup_location_features` -/
def lookup_location_features (store : PlutoStore) (p : ParsedDescription) : LocationFeatures :=
  if !(pyTruthyOptStr p.street_address) || !(pyTruthyOptStr p.borough) then
    defaultLocationFeatures
  else
    let street_address := p.street_address.getD ""
    let borough_name := p.borough.getD ""
    match boroCodeGet borough_name with
    | none => defaultLocationFeatures
    | some bcode =>
      let m0 := exact_address_match store street_address bcode
      let m := match m0 with
        | some x => some x
        | none => fuzzy_address_match store street_address bcode
      match m with
      | none => defaultLocationFeatures
      | some mch => matchedFeatures store p mch

/-! ## `models.py` and `classify.py` -/

/-- An already-fitted binary text predictor, abstracted to the probability it
assigns to class 1 (`predict_proba([text])[0, 1]`). -/
abbrev Predictor := String → ℚ

/-- The dictionary `load_models` returns: a value per key in
`["table_2_2_activity", "new_connection"]` exactly when the corresponding
`.joblib` artifact exists and loads. -/
structure Models where
  table22 : Option Predictor
  newConn : Option Predictor

/-- `load_models`: the models directory is abstracted as a partial map from
file name to the predictor stored there. -/
def load_models (models_dir : String → Option Predictor) : Models :=
  { table22 := models_dir "table_2_2_activity.joblib"
    newConn := models_dir "new_connection.joblib" }

def Models.get (m : Models) (key : String) : Option Predictor :=
  if key == "table_2_2_activity" then m.table22
  else if key == "new_connection" then m.newConn
  else none

/-- `StormwaterClassifier._predict`: a missing predictor degrades to `False`;
a loaded one thresholds its probability at 0.5. -/
def predict (models : Models) (key : String) (text : String) : Bool :=
  match models.get key with
  | none => false
  | some model => decide ((1 : ℚ) / 2 ≤ model text)

structure IntermediateLabels where
  disturb_20000_sf : Bool
  new_imp_5000_sf : Bool
  new_imp : Bool
  table_2_2_activity : Bool
  in_ms4 : Bool
  pollutants_of_concern : List String
deriving DecidableEq, Repr

/-- `NNI` is polymorphic in the source (`False` or a list of tags). -/
inductive NNIValue where
  | boolFalse
  | tagList (tags : List String)
deriving DecidableEq, Repr

structure FinalLabels where
  ESC : Bool
  WQ : Bool
  RR : Bool
  NNI : NNIValue
  Vv : Bool
deriving DecidableEq, Repr

/-- `StormwaterClassifier._loc_features` -/
def loc_features (store : PlutoStore) (parsed : ParsedDescription) : LocationFeatures :=
  if !(pyTruthyOptStr parsed.street_address) || !(pyTruthyOptStr parsed.borough) then
    defaultLocationFeatures
  else lookup_location_features store parsed

/-- `StormwaterClassifier._compute_intermediates`. The `parsed.disturbed_area_sf
or loc.get("lot_area_sf", None)` uses Python truthiness: a parsed 0.0 falls
through to the lot area, exactly like an absent value. -/
def compute_intermediates (models : Models) (parsed : ParsedDescription)
    (loc : LocationFeatures) : IntermediateLabels × Bool :=
  let disturbed : Option ℚ :=
    if parsed.disturbed_area_sf = some .fullSite then loc.full_site_disturbed_sf
    else
      match parsed.disturbed_area_sf with
      | some (.num v) => if v = 0 then loc.lot_area_sf else some v
      | _ => loc.lot_area_sf
  let new_imp : ℚ := if parsed.new_impervious_sf = 0 then 0 else parsed.new_impervious_sf
  let disturbs_20k := match disturbed with
    | some d => decide ((20000 : ℚ) ≤ d)
    | none => false
  let creates_5k_new_imp := decide ((5000 : ℚ) ≤ new_imp)
  let new_imp_any := decide ((0 : ℚ) < new_imp)
  let is_table_22 := predict models "table_2_2_activity" parsed.text
  let vv_pred := predict models "new_connection" parsed.text
  ({ disturb_20000_sf := disturbs_20k
     new_imp_5000_sf := creates_5k_new_imp
     new_imp := new_imp_any
     table_2_2_activity := is_table_22
     in_ms4 := loc.in_ms4_area
     pollutants_of_concern := loc.pollutants_of_concern }, vv_pred)

/-- `StormwaterClassifier._compute_final_labels` -/
def compute_final_labels (I : IntermediateLabels) (vv_pred : Bool) : FinalLabels :=
  let ESC := I.disturb_20000_sf || I.new_imp_5000_sf
  let RR := (I.new_imp || I.new_imp_5000_sf) && !I.table_2_2_activity
  let WQ := RR
  let NNI := if I.new_imp && I.disturb_20000_sf && !I.table_2_2_activity && I.in_ms4 then
      NNIValue.tagList I.pollutants_of_concern
    else NNIValue.boolFalse
  { ESC := ESC, WQ := WQ, RR := RR, NNI := NNI, Vv := vv_pred }

/-- The state a constructed `StormwaterClassifier` closes over: the lookup
client's store and the (cached) loaded models. -/
structure ClassifierEnv where
  store : PlutoStore
  models : Models

/-- `StormwaterClassifier.classify` -/
def classify (env : ClassifierEnv) (raw_text : String) : FinalLabels :=
  let parsed := parse_description raw_text
  let loc := loc_features env.store parsed
  let iv := compute_intermediates env.models parsed loc
  compute_final_labels iv.1 iv.2

/-- `StormwaterClassifier.classify_with_explanation` -/
def classify_with_explanation (env : ClassifierEnv) (raw_text : String) :
    FinalLabels × IntermediateLabels :=
  let parsed := parse_description raw_text
  let loc := loc_features env.store parsed
  let iv := compute_intermediates env.models parsed loc
  (compute_final_labels iv.1 iv.2, iv.1)

/-! ## `scripts/eval_classifier.py`: `to_bool` -/

/-- The Python values a ground-truth CSV cell can present to `to_bool`. -/
inductive PyVal where
  | bool (b : Bool)
  | int (n : ℤ)
  | float (q : ℚ)
  | str (s : String)
deriving DecidableEq, Repr

/-- Python `str.strip()` (whitespace on both ends). -/
def pyStrip (s : List Char) : List Char :=
  ((s.dropWhile isSpaceC).reverse.dropWhile isSpaceC).reverse

/-- Python `int()` on a float truncates toward zero. -/
def ratTrunc (q : ℚ) : ℤ := if 0 ≤ q then q.floor else -((-q).floor)

/-- `to_bool` from `eval_classifier.py`: `.ok` is the returned integer,
`.error` the message of the raised `ValueError`. -/
def to_bool (v : PyVal) : Except String ℤ :=
  match v with
  | .bool b => .ok (if b then 1 else 0)
  | .int n => .ok n
  | .float q => .ok (ratTrunc q)
  | .str s =>
    let val := String.mk ((pyStrip s.data).map lowerC)
    if val ∈ ["true", "1", "yes", "y"] then .ok 1
    else if val ∈ ["false", "0", "no", "n", "", "none"] then .ok 0
    else .error ("Cannot interpret boolean value: " ++ val)

/-! ## Matcher lemmas

`SufAt prev cs prev' cs'` says position `(prev', cs')` is reachable from
`(prev, cs)` by consuming characters of the text (with the running previous
character tracked); every outcome the matcher returns lies at such a
position, which is what lets a failed global `findall` rule out phrase
matches anywhere in the text. -/

inductive SufAt : Option Char → List Char → Option Char → List Char → Prop where
  | refl (prev : Option Char) (cs : List Char) : SufAt prev cs prev cs
  | step {prev : Option Char} {c : Char} {cs : List Char} {prev' : Option Char}
      {cs' : List Char} : SufAt (some c) cs prev' cs' → SufAt prev (c :: cs) prev' cs'

theorem SufAt.trans {p1 : Option Char} {c1 : List Char} {p2 : Option Char} {c2 : List Char}
    {p3 : Option Char} {c3 : List Char} (h1 : SufAt p1 c1 p2 c2) (h2 : SufAt p2 c2 p3 c3) :
    SufAt p1 c1 p3 c3 := by
  induction h1 with
  | refl => exact h2
  | step _ ih => exact .step (ih h2)

theorem mem_bindL {l : List α} {f : α → List β} {b : β} :
    b ∈ bindL l f ↔ ∃ a ∈ l, b ∈ f a := by
  induction l with
  | nil => simp [bindL]
  | cons x l ih => simp [bindL, ih, List.mem_append, or_and_right, exists_or]

theorem bindL_ne_of_mem {l : List α} {f : α → List β} {a : α} (ha : a ∈ l)
    (hf : f a ≠ []) : bindL l f ≠ [] := by
  obtain ⟨b, hb⟩ := List.exists_mem_of_ne_nil _ hf
  exact List.ne_nil_of_mem (mem_bindL.mpr ⟨a, ha, hb⟩)

theorem manyL_sufat (p : Char → Bool) :
    ∀ (prev : Option Char) (cs : List Char) (x : List Char × Option Char),
      x ∈ manyL p prev cs → SufAt prev cs x.2 x.1 := by
  intro prev cs
  induction cs generalizing prev with
  | nil =>
    intro x hx
    simp only [manyL, List.mem_singleton] at hx
    subst hx; exact .refl _ _
  | cons c cs' ih =>
    intro x hx
    simp only [manyL, List.mem_cons] at hx
    rcases hx with h | h
    · subst h; exact .refl _ _
    · by_cases hpc : p c = true
      · simp only [hpc, if_true] at h
        exact .step (ih (some c) x h)
      · simp only [hpc] at h
        simp at h

theorem litMatch_sufat :
    ∀ (s : List Char) (prev : Option Char) (cs rem : List Char) (pr : Option Char),
      litMatch s prev cs = some (rem, pr) → SufAt prev cs pr rem := by
  intro s
  induction s with
  | nil =>
    intro prev cs rem pr h
    simp only [litMatch, Option.some.injEq, Prod.mk.injEq] at h
    obtain ⟨h1, h2⟩ := h
    subst h1; subst h2; exact .refl _ _
  | cons a s' ih =>
    intro prev cs rem pr h
    cases cs with
    | nil => simp [litMatch] at h
    | cons c cs' =>
      simp only [litMatch] at h
      by_cases hc : lowerC a = lowerC c
      · rw [if_pos hc] at h
        exact .step (ih (some c) cs' rem pr h)
      · rw [if_neg hc] at h
        exact absurd h (by simp)

theorem mtch_sufat :
    ∀ (r : Rx) (prev : Option Char) (cs : List Char) (st : MatchState),
      st ∈ mtch r prev cs → SufAt prev cs st.prev st.rem := by
  intro r
  induction r with
  | eps =>
    intro prev cs st h
    simp only [mtch, List.mem_singleton] at h
    subst h; exact .refl _ _
  | cls p =>
    intro prev cs st h
    cases cs with
    | nil => simp [mtch] at h
    | cons c cs' =>
      simp only [mtch] at h
      by_cases hpc : p c = true
      · rw [if_pos hpc] at h
        simp only [List.mem_singleton] at h
        subst h; exact .step (.refl _ _)
      · rw [if_neg hpc] at h
        simp at h
  | lit s =>
    intro prev cs st h
    simp only [mtch] at h
    cases hlm : litMatch s prev cs with
    | none => rw [hlm] at h; simp at h
    | some x =>
      rw [hlm] at h
      simp only [List.mem_singleton] at h
      subst h
      exact litMatch_sufat s prev cs x.1 x.2 (by rw [hlm])
  | seq a b iha ihb =>
    intro prev cs st h
    simp only [mtch] at h
    rw [mem_bindL] at h
    obtain ⟨st1, hst1, hmap⟩ := h
    rw [List.mem_map] at hmap
    obtain ⟨st2, hst2, heq⟩ := hmap
    subst heq
    exact (iha prev cs st1 hst1).trans (ihb st1.prev st1.rem st2 hst2)
  | alt a b iha ihb =>
    intro prev cs st h
    simp only [mtch, List.mem_append] at h
    rcases h with h | h
    · exact iha prev cs st h
    · exact ihb prev cs st h
  | opt a iha =>
    intro prev cs st h
    simp only [mtch, List.mem_append, List.mem_singleton] at h
    rcases h with h | h
    · exact iha prev cs st h
    · subst h; exact .refl _ _
  | many p g =>
    intro prev cs st h
    simp only [mtch] at h
    have hmem : st ∈ (manyL p prev cs).map (fun x => (⟨x.1, x.2, none⟩ : MatchState)) := by
      cases g with
      | true => rw [if_pos rfl] at h; exact List.mem_reverse.mp h
      | false => simpa using h
    rw [List.mem_map] at hmem
    obtain ⟨x, hx, hmx⟩ := hmem
    subst hmx
    exact manyL_sufat p prev cs x hx
  | many1 p g =>
    intro prev cs st h
    simp only [mtch] at h
    have hmem : st ∈ ((manyL p prev cs).drop 1).map (fun x => (⟨x.1, x.2, none⟩ : MatchState)) := by
      cases g with
      | true => rw [if_pos rfl] at h; exact List.mem_reverse.mp h
      | false => simpa using h
    rw [List.mem_map] at hmem
    obtain ⟨x, hx, hmx⟩ := hmem
    subst hmx
    exact manyL_sufat p prev cs x (List.mem_of_mem_drop hx)
  | wb =>
    intro prev cs st h
    simp only [mtch] at h
    split at h
    · simp only [List.mem_singleton] at h
      subst h; exact .refl _ _
    · simp at h
  | grp a iha =>
    intro prev cs st h
    simp only [mtch, List.mem_map] at h
    obtain ⟨st0, hst0, hmx⟩ := h
    subst hmx
    exact iha prev cs st0 hst0

theorem mtch_seq_ne_iff {a b : Rx} {prev : Option Char} {cs : List Char} :
    mtch (.seq a b) prev cs ≠ [] ↔
      ∃ st ∈ mtch a prev cs, mtch b st.prev st.rem ≠ [] := by
  constructor
  · intro h
    obtain ⟨st, hst⟩ := List.exists_mem_of_ne_nil _ h
    simp only [mtch] at hst
    rw [mem_bindL] at hst
    obtain ⟨st1, hst1, hmap⟩ := hst
    exact ⟨st1, hst1, by
      intro hnil
      rw [hnil] at hmap
      simp at hmap⟩
  · intro ⟨st, hst, hne⟩
    simp only [mtch]
    exact bindL_ne_of_mem hst (by simpa using hne)

theorem mtch_seq_ne_left {a b : Rx} {prev : Option Char} {cs : List Char}
    (h : mtch (.seq a b) prev cs ≠ []) : mtch a prev cs ≠ [] := by
  obtain ⟨st, hst, _⟩ := mtch_seq_ne_iff.mp h
  exact List.ne_nil_of_mem hst

theorem seq_right_reach {a b : Rx} {prev : Option Char} {cs : List Char}
    (h : mtch (.seq a b) prev cs ≠ []) :
    ∃ prev' cs', SufAt prev cs prev' cs' ∧ mtch b prev' cs' ≠ [] := by
  obtain ⟨st, hst, hne⟩ := mtch_seq_ne_iff.mp h
  exact ⟨st.prev, st.rem, mtch_sufat a prev cs st hst, hne⟩

theorem mtch_grp_ne_iff {a : Rx} {prev : Option Char} {cs : List Char} :
    mtch (.grp a) prev cs ≠ [] ↔ mtch a prev cs ≠ [] := by
  simp only [mtch, ne_eq, List.map_eq_nil_iff]

theorem unit2_to_unit3 {prev : Option Char} {cs : List Char}
    (h : mtch unit2 prev cs ≠ []) : mtch unit3 prev cs ≠ [] := by
  intro heq
  apply h
  simp only [unit3, mtch, List.append_eq_nil] at heq
  simp only [unit2, mtch, List.append_eq_nil]
  exact ⟨heq.1, heq.2.1⟩

theorem qty2_tail_mono {prev : Option Char} {cs : List Char}
    (h : mtch (.seq sp0 unit2) prev cs ≠ []) : mtch (.seq sp0 unit3) prev cs ≠ [] := by
  obtain ⟨st, hst, hne⟩ := mtch_seq_ne_iff.mp h
  exact mtch_seq_ne_iff.mpr ⟨st, hst, unit2_to_unit3 hne⟩

theorem qty3_to_number {prev : Option Char} {cs : List Char}
    (h : mtch qty3 prev cs ≠ []) : mtch NUMBER_SF_PATTERN prev cs ≠ [] := by
  rw [qty3] at h
  obtain ⟨st, hst, hne⟩ := mtch_seq_ne_iff.mp h
  rw [NUMBER_SF_PATTERN]
  apply mtch_seq_ne_iff.mpr
  refine ⟨⟨st.rem, st.prev, some (cs.take (cs.length - st.rem.length))⟩, ?_, ?_⟩
  · simp only [mtch, List.mem_map]
    exact ⟨st, hst, rfl⟩
  · simpa using hne

theorem qty2_to_number {prev : Option Char} {cs : List Char}
    (h : mtch qty2 prev cs ≠ []) : mtch NUMBER_SF_PATTERN prev cs ≠ [] := by
  rw [qty2] at h
  obtain ⟨st, hst, hne⟩ := mtch_seq_ne_iff.mp h
  rw [NUMBER_SF_PATTERN]
  apply mtch_seq_ne_iff.mpr
  refine ⟨⟨st.rem, st.prev, some (cs.take (cs.length - st.rem.length))⟩, ?_, ?_⟩
  · simp only [mtch, List.mem_map]
    exact ⟨st, hst, rfl⟩
  · simpa using qty2_tail_mono hne

/-- Position reachable from here at which the bare quantity pattern matches. -/
def ReachesNumber (prev : Option Char) (cs : List Char) : Prop :=
  ∃ prev' cs', SufAt prev cs prev' cs' ∧ mtch NUMBER_SF_PATTERN prev' cs' ≠ []

theorem reach_here {prev : Option Char} {cs : List Char}
    (h : mtch NUMBER_SF_PATTERN prev cs ≠ []) : ReachesNumber prev cs :=
  ⟨prev, cs, .refl _ _, h⟩

theorem reach_of_seq_right {a b : Rx} {prev : Option Char} {cs : List Char}
    (h : mtch (.seq a b) prev cs ≠ [])
    (k : ∀ prev' cs', mtch b prev' cs' ≠ [] → ReachesNumber prev' cs') :
    ReachesNumber prev cs := by
  obtain ⟨p1, c1, hsuf, hne⟩ := seq_right_reach h
  obtain ⟨p2, c2, hsuf2, hne2⟩ := k p1 c1 hne
  exact ⟨p2, c2, hsuf.trans hsuf2, hne2⟩

/-- A match of `DISTURB_PHRASES[0]` contains a match of the bare quantity
pattern. -/
theorem disturbP1_needs_number {prev : Option Char} {cs : List Char}
    (h : mtch disturbP1 prev cs ≠ []) : ReachesNumber prev cs := by
  rw [disturbP1] at h
  refine reach_of_seq_right h (fun p1 c1 h1 => ?_)
  refine reach_of_seq_right h1 (fun p2 c2 h2 => ?_)
  refine reach_of_seq_right h2 (fun p3 c3 h3 => ?_)
  refine reach_of_seq_right h3 (fun p4 c4 h4 => ?_)
  refine reach_of_seq_right h4 (fun p5 c5 h5 => ?_)
  exact reach_here (qty3_to_number (mtch_grp_ne_iff.mp h5))

/-- A match of `DISTURB_PHRASES[1]` contains a match of the bare quantity
pattern. -/
theorem disturbP2_needs_number {prev : Option Char} {cs : List Char}
    (h : mtch disturbP2 prev cs ≠ []) : ReachesNumber prev cs := by
  rw [disturbP2] at h
  refine reach_of_seq_right h (fun p1 c1 h1 => ?_)
  refine reach_of_seq_right h1 (fun p2 c2 h2 => ?_)
  refine reach_of_seq_right h2 (fun p3 c3 h3 => ?_)
  refine reach_of_seq_right h3 (fun p4 c4 h4 => ?_)
  refine reach_of_seq_right h4 (fun p5 c5 h5 => ?_)
  refine reach_of_seq_right h5 (fun p6 c6 h6 => ?_)
  exact reach_here (qty2_to_number (mtch_grp_ne_iff.mp h6))

theorem impP1_needs_number {prev : Option Char} {cs : List Char}
    (h : mtch impP1 prev cs ≠ []) : ReachesNumber prev cs := by
  rw [impP1] at h
  refine reach_of_seq_right h (fun p1 c1 h1 => ?_)
  refine reach_of_seq_right h1 (fun p2 c2 h2 => ?_)
  refine reach_of_seq_right h2 (fun p3 c3 h3 => ?_)
  refine reach_of_seq_right h3 (fun p4 c4 h4 => ?_)
  refine reach_of_seq_right h4 (fun p5 c5 h5 => ?_)
  refine reach_of_seq_right h5 (fun p6 c6 h6 => ?_)
  refine reach_of_seq_right h6 (fun p7 c7 h7 => ?_)
  refine reach_of_seq_right h7 (fun p8 c8 h8 => ?_)
  exact reach_here (qty2_to_number (mtch_grp_ne_iff.mp h8))

theorem impP2_needs_number {prev : Option Char} {cs : List Char}
    (h : mtch impP2 prev cs ≠ []) : ReachesNumber prev cs := by
  rw [impP2] at h
  refine reach_of_seq_right h (fun p1 c1 h1 => ?_)
  refine reach_of_seq_right h1 (fun p2 c2 h2 => ?_)
  exact reach_here (qty2_to_number (mtch_grp_ne_iff.mp (mtch_seq_ne_left h2)))

theorem impP3_needs_number {prev : Option Char} {cs : List Char}
    (h : mtch impP3 prev cs ≠ []) : ReachesNumber prev cs := by
  rw [impP3] at h
  refine reach_of_seq_right h (fun p1 c1 h1 => ?_)
  exact reach_here (qty2_to_number (mtch_grp_ne_iff.mp (mtch_seq_ne_left h1)))

theorem searchAux_some_reach (r : Rx) :
    ∀ (fuel : Nat) (prev : Option Char) (cs : List Char) (st : MatchState),
      searchAux r fuel prev cs = some st →
      ∃ prev' cs', SufAt prev cs prev' cs' ∧ mtch r prev' cs' ≠ [] := by
  intro fuel
  induction fuel with
  | zero => intro prev cs st h; simp [searchAux] at h
  | succ n ih =>
    intro prev cs st h
    cases hm : mtch r prev cs with
    | cons a l => exact ⟨prev, cs, .refl _ _, by rw [hm]; simp⟩
    | nil =>
      simp only [searchAux, hm] at h
      cases cs with
      | nil => simp at h
      | cons c cs' =>
        obtain ⟨p', c', hsuf, hne⟩ := ih (some c) cs' st h
        exact ⟨p', c', .step hsuf, hne⟩

theorem findallAux_nil_no_match (r : Rx) {prev : Option Char} {cs : List Char}
    {prev' : Option Char} {cs' : List Char} (hsuf : SufAt prev cs prev' cs') :
    ∀ fuel, cs.length < fuel → findallAux r fuel prev cs = [] → mtch r prev' cs' = [] := by
  induction hsuf with
  | refl prev cs =>
    intro fuel hlt h
    cases fuel with
    | zero => omega
    | succ n =>
      cases hm : mtch r prev cs with
      | nil => rfl
      | cons a l =>
        exfalso
        simp only [findallAux, hm] at h
        split at h
        · simp at h
        · cases cs <;> simp at h
  | step hs ih =>
    rename_i prev1 c1 cs1 prev2 cs2
    intro fuel hlt h
    cases fuel with
    | zero => omega
    | succ n =>
      cases hm : mtch r prev1 (c1 :: cs1) with
      | cons a l =>
        exfalso
        simp only [findallAux, hm] at h
        split at h
        · simp at h
        · simp at h
      | nil =>
        simp only [findallAux, hm] at h
        refine ih n ?_ h
        simp only [List.length_cons] at hlt
        omega

theorem rxFindall_nil_no_match {r : Rx} {cs : List Char} (h : rxFindall r cs = [])
    {prev' : Option Char} {cs' : List Char} (hsuf : SufAt none cs prev' cs') :
    mtch r prev' cs' = [] :=
  findallAux_nil_no_match r hsuf (cs.length + 1) (Nat.lt_succ_self _) h

/-- If the global quantity scan finds nothing, a pattern every match of which
contains a quantity token cannot match anywhere. -/
theorem no_number_no_phrase {cs : List Char} (h : rxFindall NUMBER_SF_PATTERN cs = [])
    {r : Rx} (hk : ∀ prev0 cs0, mtch r prev0 cs0 ≠ [] → ReachesNumber prev0 cs0) :
    rxSearch r cs = none := by
  cases hs : rxSearch r cs with
  | none => rfl
  | some st =>
    exfalso
    obtain ⟨p1, c1, hsuf1, hne1⟩ := searchAux_some_reach r (cs.length + 1) none cs st hs
    obtain ⟨p2, c2, hsuf2, hne2⟩ := hk p1 c1 hne1
    exact hne2 (rxFindall_nil_no_match h (hsuf1.trans hsuf2))

/-- Under no quantity token, no full-site phrase and no new-building phrase,
both extraction cascades fall through to their defaults. -/
theorem parse_cascades_empty {cs : List Char}
    (hq : rxFindall NUMBER_SF_PATTERN cs = [])
    (hf : anyMatch FULL_SITE_PHRASES cs = false)
    (hb : anyMatch NEW_BUILDING_PATTERNS cs = false) :
    newImpCascade cs = 0 ∧ disturbedCascade cs = none := by
  have hd1 : rxSearch disturbP1 cs = none :=
    no_number_no_phrase hq (fun p c h => disturbP1_needs_number h)
  have hd2 : rxSearch disturbP2 cs = none :=
    no_number_no_phrase hq (fun p c h => disturbP2_needs_number h)
  have hi1 : rxSearch impP1 cs = none :=
    no_number_no_phrase hq (fun p c h => impP1_needs_number h)
  have hi2 : rxSearch impP2 cs = none :=
    no_number_no_phrase hq (fun p c h => impP2_needs_number h)
  have hi3 : rxSearch impP3 cs = none :=
    no_number_no_phrase hq (fun p c h => impP3_needs_number h)
  constructor
  · simp [newImpCascade, newImpFromPhrases, IMPERVIOUS_PHRASES, firstMatchCapture,
      hi1, hi2, hi3, hb]
  · simp [disturbedCascade, disturbedNumeric, disturbedFromPhrases, DISTURB_PHRASES,
      firstMatchCapture, hd1, hd2, hq, hf]

/-- Every value `_extract_sf_number` produces is a digit string, hence
non-negative. -/
theorem extract_sf_number_nonneg {g : List Char} {v : ℚ}
    (h : extract_sf_number g = some v) : 0 ≤ v := by
  simp only [extract_sf_number] at h
  split at h
  · simp at h
  · simp only [Option.some.injEq] at h
    subst h
    exact Nat.cast_nonneg _

/-- Every numeric disturbed-area value the cascade produces is non-negative. -/
theorem disturbedNumeric_nonneg {cs : List Char} {v : ℚ}
    (h : disturbedNumeric cs = some v) : 0 ≤ v := by
  rw [disturbedNumeric] at h
  cases hp : disturbedFromPhrases cs with
  | some w =>
    rw [hp] at h
    simp only [Option.some.injEq] at h
    subst h
    rw [disturbedFromPhrases] at hp
    cases hc : firstMatchCapture DISTURB_PHRASES cs with
    | some capv => rw [hc] at hp; exact extract_sf_number_nonneg hp
    | none => rw [hc] at hp; simp at hp
  | none =>
    rw [hp] at h
    cases hfa : rxFindall NUMBER_SF_PATTERN cs with
    | nil => rw [hfa] at h; simp at h
    | cons g t =>
      cases t with
      | nil => rw [hfa] at h; exact extract_sf_number_nonneg h
      | cons g2 t2 => rw [hfa] at h; simp at h

/-! ## Claim-side definitions (statements of the spec sentences under test) -/

/-- Claim C4's selector for the disturbed-area quantity actually used, as the
claim states it: the parsed numeric disturbed area whenever it is present. -/
def claimDisturbedUsed (p : ParsedDescription) (loc : LocationFeatures) : Option ℚ :=
  match p.disturbed_area_sf with
  | some .fullSite => loc.full_site_disturbed_sf
  | some (.num v) => some v
  | none => loc.lot_area_sf

/-- Claim C4's threshold rule over its selector. -/
def claimDisturb20k (p : ParsedDescription) (loc : LocationFeatures) : Bool :=
  match claimDisturbedUsed p loc with
  | some d => decide ((20000 : ℚ) ≤ d)
  | none => false

/-- Amended C4 selector: the parsed numeric disturbed area counts only when it
is nonzero (Python truthiness of `parsed.disturbed_area_sf or ...`); a parsed
0 falls through to the resolved lot area. -/
def amendedDisturbedUsed (p : ParsedDescription) (loc : LocationFeatures) : Option ℚ :=
  match p.disturbed_area_sf with
  | some .fullSite => loc.full_site_disturbed_sf
  | some (.num v) => if v = 0 then loc.lot_area_sf else some v
  | none => loc.lot_area_sf

theorem intermediates_disturb_20k (models : Models) (p : ParsedDescription)
    (loc : LocationFeatures) :
    (compute_intermediates models p loc).1.disturb_20000_sf =
      match amendedDisturbedUsed p loc with
      | some d => decide ((20000 : ℚ) ≤ d)
      | none => false := by
  cases hd : p.disturbed_area_sf with
  | none => simp [compute_intermediates, amendedDisturbedUsed, hd]
  | some da =>
    cases da with
    | fullSite => simp [compute_intermediates, amendedDisturbedUsed, hd]
    | num v => simp [compute_intermediates, amendedDisturbedUsed, hd]

/-- Plain prefix test on character lists. -/
def listStartsWith : List Char → List Char → Bool
  | [], _ => true
  | _ :: _, [] => false
  | p :: ps, c :: cs => decide (p = c) && listStartsWith ps cs

/-- Plain containment: `p` occurs contiguously somewhere in the second list. -/
def listOccursIn (p : List Char) : List Char → Bool
  | [] => listStartsWith p []
  | c :: cs => listStartsWith p (c :: cs) || listOccursIn p cs

/-- Case-insensitive substring containment: the exact-match test as claim C6
words it. -/
def substringCI (hay pat : String) : Bool :=
  listOccursIn (pat.data.map lowerC) (hay.data.map lowerC)

/-- The resolver contract as claim C6 states it: defaults without lookup when
address or borough is absent; otherwise exact case-insensitive SUBSTRING
match first, then the 0.6-cutoff fuzzy fallback, defaulting when neither
yields a candidate. -/
def resolverClaimC6 (store : PlutoStore) (p : ParsedDescription) : LocationFeatures :=
  match p.street_address, p.borough with
  | some a, some b =>
    (match boroCodeGet b with
    | none => defaultLocationFeatures
    | some bcode =>
      let exact := store.pluto.find? (fun r => r.Borough == bcode && substringCI r.Address a)
      match (match exact with | some m => some m | none => fuzzy_address_match store a bcode) with
      | none => defaultLocationFeatures
      | some m => matchedFeatures store p m)
  | _, _ => defaultLocationFeatures

/-- The resolver contract as amended: the exact step is pandas regex
containment (the address is used as a regular-expression pattern, `.` a
wildcard), and an extracted empty string behaves like an absent field. -/
def resolverSpecC6 (store : PlutoStore) (p : ParsedDescription) : LocationFeatures :=
  match p.street_address, p.borough with
  | some a, some b =>
    if a = "" ∨ b = "" then defaultLocationFeatures
    else
      (match boroCodeGet b with
      | none => defaultLocationFeatures
      | some bcode =>
        match (match exact_address_match store a bcode with
               | some m => some m
               | none => fuzzy_address_match store a bcode) with
        | none => defaultLocationFeatures
        | some m => matchedFeatures store p m)
  | _, _ => defaultLocationFeatures

/-- Amended C8 contract for `to_bool`, written from the amended claim: bools
map to 1/0, numbers to their integer value (0/1 only for 0/1-valued numbers),
recognized strings (after trimming and lowercasing) to 1/0, and anything else
raises an error naming the normalized offending value. -/
def toBoolSpec (v : PyVal) : Except String ℤ :=
  match v with
  | .bool b => .ok (if b then 1 else 0)
  | .int n => .ok n
  | .float q => .ok (ratTrunc q)
  | .str s =>
    let canon := String.mk ((pyStrip s.data).map lowerC)
    if canon = "true" ∨ canon = "1" ∨ canon = "yes" ∨ canon = "y" then .ok 1
    else if canon = "false" ∨ canon = "0" ∨ canon = "no" ∨ canon = "n" ∨ canon = "" ∨
        canon = "none" then .ok 0
    else .error ("Cannot interpret boolean value: " ++ canon)

/-! ## Concrete stores and environments used by counterexamples and witnesses -/

/-- A store whose single parcel sits inside a drainage polygon none of whose
pollutant indicators is "YES". -/
def storeC1 : PlutoStore :=
  { pluto := [{ Borough := "BX", Address := "9 A St", centroid := (0, 0), LotArea := some 1000 }]
    ms4 := [{ containsPt := fun _ => true, FLOATABLES := "NO", PATHOGENS := "NO",
              NITROGEN := "NO", PHOSPHORUS := "NO" }] }

def envC1 : ClassifierEnv := { store := storeC1, models := { table22 := none, newConn := none } }

/-! ## The claims -/

/-- Claim C1, counterexample. The claim says the `NNI` field is never the
empty set. On the text "9 A St Bronx disturbs 25,000 sf, new building" with
a store that resolves the parcel inside a drainage polygon whose four
pollutant indicators are all "NO" (and no predictors loaded), the rule
`new_imp AND disturb_20000_sf AND NOT table_2_2_activity AND in_ms4` fires
while `pollutants_of_concern` is empty, so `NNI` IS the empty tag set —
distinct from the boolean `false` arm of the union. -/
theorem C1_counterexample :
    (classify envC1 "9 A St Bronx disturbs 25,000 sf, new building").NNI =
      NNIValue.tagList [] ∧
    NNIValue.tagList ([] : List String) ≠ NNIValue.boolFalse := by
  exact ⟨by decide, by decide⟩

/-- Claim C1, amended: `NNI` equals the pollutant tag set — which may be
empty — exactly when `new_imp AND disturb_20000_sf AND NOT table_2_2_activity
AND in_ms4` hold, and is the boolean `false` otherwise. (The original claim's
"never the empty set" clause is dropped: a parcel inside a drainage area with
no YES indicator yields the empty tag set.) -/
theorem C1_theorem (env : ClassifierEnv) (text : String) :
    (classify env text).NNI =
      (if (classify_with_explanation env text).2.new_imp &&
          (classify_with_explanation env text).2.disturb_20000_sf &&
          !(classify_with_explanation env text).2.table_2_2_activity &&
          (classify_with_explanation env text).2.in_ms4 then
        NNIValue.tagList (classify_with_explanation env text).2.pollutants_of_concern
      else NNIValue.boolFalse) := rfl

/-- Claim C2: `WQ` equals `RR` on every computed `FinalLabels`, through both
entry points (`WQ = RR` is literally how `_compute_final_labels` builds the
record). -/
theorem C2_theorem (env : ClassifierEnv) (text : String) :
    (classify env text).WQ = (classify env text).RR ∧
    (classify_with_explanation env text).1.WQ = (classify_with_explanation env text).1.RR :=
  ⟨rfl, rfl⟩

/-- Claim C9: classification is deterministic — the pipeline is a pure
function of the store, the loaded models and the text, and the two entry
points agree on the final labels. -/
theorem C9_theorem (env : ClassifierEnv) (text : String) :
    classify env text = classify env text ∧
    (classify_with_explanation env text).1 = classify env text :=
  ⟨rfl, rfl⟩

/-- Claim C3, counterexample. "construction of a new building" contains no
quantity-with-unit token, yet the parser's nominal-value rule sets
`new_impervious_sf` to 1, not 0. -/
theorem C3_counterexample :
    rxFindall NUMBER_SF_PATTERN ("construction of a new building").data = [] ∧
    (parse_description "construction of a new building").new_impervious_sf = 1 := by
  exact ⟨by decide, by decide⟩

/-- Claim C3, amended: for every input text with no recognized
quantity-with-unit token, AND no full-site phrase, AND no new-building
phrase, the parser yields `new_impervious_sf = 0` and an absent
`disturbed_area_sf`. (A full-site phrase alone sets the sentinel, and a
new-building phrase alone sets the nominal 1, both without any quantity
token, so the two extra exclusions are forced.) -/
theorem C3_theorem (text : String)
    (hq : rxFindall NUMBER_SF_PATTERN text.data = [])
    (hf : anyMatch FULL_SITE_PHRASES text.data = false)
    (hb : anyMatch NEW_BUILDING_PATTERNS text.data = false) :
    (parse_description text).new_impervious_sf = 0 ∧
    (parse_description text).disturbed_area_sf = none := by
  have h := parse_cascades_empty hq hf hb
  exact ⟨h.1, h.2⟩

/-- Witness for C3 at the concrete text "interior renovation". -/
theorem C3_witness :
    (rxFindall NUMBER_SF_PATTERN ("interior renovation").data = [] ∧
     anyMatch FULL_SITE_PHRASES ("interior renovation").data = false ∧
     anyMatch NEW_BUILDING_PATTERNS ("interior renovation").data = false) ∧
    (parse_description "interior renovation").new_impervious_sf = 0 ∧
    (parse_description "interior renovation").disturbed_area_sf = none :=
  ⟨⟨by decide, by decide, by decide⟩,
    C3_theorem "interior renovation" (by decide) (by decide) (by decide)⟩

def storeC4 : PlutoStore :=
  { pluto := [{ Borough := "BX", Address := "9 A St", centroid := (0, 0), LotArea := some 30000 }]
    ms4 := [] }

def envC4 : ClassifierEnv := { store := storeC4, models := { table22 := none, newConn := none } }

/-- Claim C4, counterexample. On "9 A St Bronx disturbs 0 sf" the parser
produces the numeric disturbed area 0; the claim's selector then uses that 0
and predicts `disturb_20000_sf = false`, but the code's Python-truthiness
`or` lets the 0 fall through to the resolved lot area (30,000 here), so the
code computes `disturb_20000_sf = true`. -/
theorem C4_counterexample :
    (classify_with_explanation envC4 "9 A St Bronx disturbs 0 sf").2.disturb_20000_sf = true ∧
    claimDisturb20k (parse_description "9 A St Bronx disturbs 0 sf")
      (loc_features envC4.store (parse_description "9 A St Bronx disturbs 0 sf")) = false := by
  exact ⟨by decide, by decide⟩

/-- Claim C4, amended: the disturbed-area quantity used is the resolver's
full-site value under the sentinel; otherwise the parsed numeric value when
present AND NONZERO, else the resolved lot area, else absent — and
`disturb_20000_sf` is true exactly when that quantity is present and at
least 20,000. -/
theorem C4_theorem (env : ClassifierEnv) (text : String) :
    (classify_with_explanation env text).2.disturb_20000_sf =
      (match amendedDisturbedUsed (parse_description text)
          (loc_features env.store (parse_description text)) with
      | some d => decide ((20000 : ℚ) ≤ d)
      | none => false) :=
  intermediates_disturb_20k env.models (parse_description text)
    (loc_features env.store (parse_description text))

/-- Claim C5, counterexample. "disturb 0 sf" parses to the numeric disturbed
area 0, which is present but not strictly positive. -/
theorem C5_counterexample :
    (parse_description "disturb 0 sf").disturbed_area_sf = some (DisturbedArea.num 0) ∧
    ¬ (0 : ℚ) > 0 := by
  exact ⟨by decide, by decide⟩

/-- Claim C5, amended: `disturbed_area_sf` is exactly one of a NON-NEGATIVE
number, the entire-site sentinel, or absent; the sentinel and a numeric value
remain mutually exclusive (a single tagged value), but a parsed "0 sf" makes
the numeric case zero, so strict positivity fails. -/
theorem C5_theorem (text : String) :
    (parse_description text).disturbed_area_sf = none ∨
    (parse_description text).disturbed_area_sf = some DisturbedArea.fullSite ∨
    ∃ v : ℚ, 0 ≤ v ∧ (parse_description text).disturbed_area_sf = some (DisturbedArea.num v) := by
  have hp : (parse_description text).disturbed_area_sf = disturbedCascade text.data := rfl
  rw [hp, disturbedCascade]
  cases hn : disturbedNumeric text.data with
  | some v =>
    right; right
    exact ⟨v, disturbedNumeric_nonneg hn, rfl⟩
  | none =>
    by_cases hf : anyMatch FULL_SITE_PHRASES text.data = true
    · right; left; simp [hf]
    · left
      simp only [Bool.not_eq_true] at hf
      simp [hf]

/-- A store whose single BX parcel has an address that regex-contains but does
not substring-contain the extracted address "1 A.C St" (pandas treats the
extracted `.` as a wildcard), and is too dissimilar for the 0.6 fuzzy cutoff. -/
def storeC6 : PlutoStore :=
  { pluto := [{ Borough := "BX", Address := "zzzzzzzzzzzz1 AXC St", centroid := (0, 0),
                LotArea := some 777 }]
    ms4 := [] }

/-- Claim C6, counterexample. On the parse of "1 A.C St Bronx" the code's
exact step resolves the parcel (pandas `str.contains` treats the address as a
regex, so "1 a.c st" matches "...1 axc st"), while the claim's
case-insensitive SUBSTRING step finds nothing and its fuzzy step scores
0.5 < 0.6, so the claim predicts the all-default features. The two disagree. -/
theorem C6_counterexample :
    lookup_location_features storeC6 (parse_description "1 A.C St Bronx") ≠
      resolverClaimC6 storeC6 (parse_description "1 A.C St Bronx") := by
  decide

/-- Claim C6, amended: the resolver returns the all-default features without
lookup when street address or borough is absent (or extracted empty — Python
truthiness); with both present it first tries the pandas containment match —
a case-insensitive REGEX containment, where `.` in the extracted address is a
wildcard, not a pure substring test — then the 0.6-cutoff closest-string
fallback, and returns the defaults when neither yields a candidate; as a
total function it never raises. -/
theorem C6_theorem (store : PlutoStore) (p : ParsedDescription) :
    lookup_location_features store p = resolverSpecC6 store p := by
  cases hsa : p.street_address with
  | none => simp [lookup_location_features, resolverSpecC6, hsa, pyTruthyOptStr]
  | some a =>
    cases hbo : p.borough with
    | none => simp [lookup_location_features, resolverSpecC6, hsa, hbo, pyTruthyOptStr]
    | some b =>
      by_cases ha : a = ""
      · simp [lookup_location_features, resolverSpecC6, hsa, hbo, pyTruthyOptStr, ha]
      · by_cases hb : b = ""
        · simp [lookup_location_features, resolverSpecC6, hsa, hbo, pyTruthyOptStr, ha, hb]
        · simp [lookup_location_features, resolverSpecC6, hsa, hbo, pyTruthyOptStr, ha, hb]

/-- Claim C7: each predictor decision is true exactly when the corresponding
artifact is present in the models directory and the loaded predictor's
probability for the raw text is at least 0.5; a missing artifact degrades to
`false` (no error — the pipeline is total). -/
theorem C7_theorem (store : PlutoStore) (models_dir : String → Option Predictor)
    (text : String) :
    ((classify_with_explanation ⟨store, load_models models_dir⟩ text).2.table_2_2_activity =
        true ↔
      ∃ f, models_dir "table_2_2_activity.joblib" = some f ∧ (1 : ℚ) / 2 ≤ f text) ∧
    ((classify_with_explanation ⟨store, load_models models_dir⟩ text).1.Vv = true ↔
      ∃ f, models_dir "new_connection.joblib" = some f ∧ (1 : ℚ) / 2 ≤ f text) := by
  constructor
  · show predict (load_models models_dir) "table_2_2_activity" text = true ↔ _
    cases hm : models_dir "table_2_2_activity.joblib" with
    | none => simp [predict, Models.get, load_models, hm]
    | some f => simp [predict, Models.get, load_models, hm]
  · show predict (load_models models_dir) "new_connection" text = true ↔ _
    cases hm : models_dir "new_connection.joblib" with
    | none => simp [predict, Models.get, load_models, hm]
    | some f => simp [predict, Models.get, load_models, hm]

/-- Claim C8, counterexample. The integer 2 is a "recognized" input (a
number), yet `to_bool` returns 2, which is neither 1 nor 0. -/
theorem C8_counterexample :
    to_bool (PyVal.int 2) = Except.ok 2 ∧ (2 : ℤ) ≠ 1 ∧ (2 : ℤ) ≠ 0 :=
  ⟨rfl, by decide, by decide⟩

/-- Claim C8, amended: `to_bool` maps booleans to 1/0, numeric inputs to
their (truncated) integer value — which is 1 or 0 only for 1/0-valued
numbers — and recognized boolean-like strings (after trimming and
lowercasing) to 1/0; every other input raises the descriptive error naming
the normalized offending value. -/
theorem C8_theorem (v : PyVal) : to_bool v = toBoolSpec v := by
  cases v with
  | bool b => rfl
  | int n => rfl
  | float q => rfl
  | str s =>
    simp only [to_bool, toBoolSpec, List.mem_cons, List.not_mem_nil, or_false]

/-- The five canonical borough spellings that key `BORO_TO_CODE`. -/
def canonicalBoroughs : List String :=
  ["Manhattan", "Bronx", "Brooklyn", "Queens", "Staten Island"]

/-- Claim C10: whenever the extracted borough string is not one of the five
case-sensitive canonical spellings (lowercase/uppercase variants, "SI",
"S.I.", ...), `BORO_TO_CODE` has no entry for it and the resolver returns the
all-default `LocationFeatures`, so no location-derived feature can be set. -/
theorem C10_theorem (store : PlutoStore) (text : String) (b : String)
    (hb : (parse_description text).borough = some b)
    (hcanon : b ∉ canonicalBoroughs) :
    lookup_location_features store (parse_description text) = defaultLocationFeatures := by
  have hcode : boroCodeGet b = none := by
    simp only [canonicalBoroughs, List.mem_cons, List.not_mem_nil, or_false, not_or] at hcanon
    obtain ⟨h1, h2, h3, h4, h5⟩ := hcanon
    have e1 : ("Manhattan" == b) = false := beq_eq_false_iff_ne.mpr (Ne.symm h1)
    have e2 : ("Bronx" == b) = false := beq_eq_false_iff_ne.mpr (Ne.symm h2)
    have e3 : ("Brooklyn" == b) = false := beq_eq_false_iff_ne.mpr (Ne.symm h3)
    have e4 : ("Queens" == b) = false := beq_eq_false_iff_ne.mpr (Ne.symm h4)
    have e5 : ("Staten Island" == b) = false := beq_eq_false_iff_ne.mpr (Ne.symm h5)
    simp [boroCodeGet, BORO_TO_CODE, List.find?, e1, e2, e3, e4, e5]
  simp only [lookup_location_features, hb]
  by_cases hbe : b = ""
  · simp [pyTruthyOptStr, hbe]
  · by_cases hs : pyTruthyOptStr (parse_description text).street_address
    · simp [hs, pyTruthyOptStr, hbe, hcode]
    · simp only [Bool.not_eq_true] at hs
      simp [hs]

def storeC10 : PlutoStore :=
  { pluto := [{ Borough := "BX", Address := "9 A St", centroid := (0, 0), LotArea := some 500 }]
    ms4 := [] }

/-- Witness for C10: "9 A St in bronx" extracts the lowercase "bronx", which
is none of the canonical spellings, and the resolver returns the defaults
even though the store holds a BX parcel matching the address. -/
theorem C10_witness :
    ((parse_description "9 A St in bronx").borough = some "bronx" ∧
     "bronx" ∉ canonicalBoroughs) ∧
    lookup_location_features storeC10 (parse_description "9 A St in bronx") =
      defaultLocationFeatures :=
  ⟨⟨by decide, by decide⟩,
    C10_theorem storeC10 "9 A St in bronx" "bronx" (by decide) (by decide)⟩
